import Mathlib

/-
Shallow embedding of lionkor/ThreadSafeQueue (src/ThreadSafeQueue.h).

The header defines, for a payload type `T`:
  * `RWMutex = std::shared_mutex`, `ReadLock = std::shared_lock<RWMutex>`,
    `WriteLock = std::unique_lock<RWMutex>`;
  * `ThreadSafeQueue<T> final : private std::deque<T>` holding one
    `mutable RWMutex m_mutex`;
  * `is_valid_lock(lock)` returning `lock.mutex() == &m_mutex`;
  * observers `front`/`back`/`empty`/`size` (one overload for `ReadLock&`,
    one for `WriteLock&`), mutators `push`/`pop` (`WriteLock&` only),
    `acquire_read_lock`/`acquire_write_lock`, and the view adaptors
    `IterableView` (constructed from a `ReadLock&`) and `IterableWriteView`
    (constructed from a `WriteLock&`).

Modelling decisions:
  * the deque's contents are a `List`, front element first;
  * a lock is represented by the address of the mutex it refers to
    (`lock.mutex()`), since that is all `is_valid_lock` inspects; a queue is
    represented by the address of its `m_mutex` plus its contents;
  * each operation is a state-passing function returning an `Outcome` and the
    queue state after the call; `ASSERT(is_valid_lock(lock))` firing is the
    `assertFail` outcome (immediate abort, storage untouched); calling an
    underlying deque operation outside its precondition (`front`/`back`/
    `pop_front` on an empty deque) is the `ub` outcome (undefined behavior in
    the C++ source, storage modelled as untouched).
-/

namespace ThreadSafeQueueModel

/-- Result of one ThreadSafeQueue operation. `ok` is a normal return.
`assertFail` models the `ASSERT(is_valid_lock(lock))` macro firing, an
immediate non-recoverable abort. `ub` models invoking an underlying
`std::deque` operation outside its precondition (`front`, `back` or
`pop_front` on an empty deque), which is undefined behavior in the source.
`emptyQueue` is the `EmptyQueue` error condition that the specification
posits; it is part of the claim vocabulary only — no function translated
from the source ever produces it. -/
inductive Outcome (α : Type) where
  | ok (a : α)
  | assertFail
  | ub
  | emptyQueue
deriving DecidableEq

/-- A `ReadLock` (`std::shared_lock<RWMutex>`). The embedding keeps the
identity (address) of the mutex the lock refers to, i.e. `lock.mutex()`,
which is the only attribute `is_valid_lock` inspects. -/
structure ReadLock where
  mutexAddr : Nat
deriving DecidableEq

/-- A `WriteLock` (`std::unique_lock<RWMutex>`), likewise identified by the
address of the mutex it refers to. -/
structure WriteLock where
  mutexAddr : Nat
deriving DecidableEq

/-- A `ThreadSafeQueue<T>`: one `RWMutex m_mutex`, identified by its address,
and the element sequence of the privately inherited `std::deque<T>`,
front element first. -/
structure TSQueue (α : Type) where
  mutexAddr : Nat
  elems : List α
deriving DecidableEq

variable {α : Type}

/-- Embeds `bool is_valid_lock(ReadLock& lock) const`:
`lock.mutex() == &m_mutex`. -/
def is_valid_lockR (q : TSQueue α) (lock : ReadLock) : Bool :=
  lock.mutexAddr == q.mutexAddr

/-- Embeds `bool is_valid_lock(WriteLock& lock) const`:
`lock.mutex() == &m_mutex`. -/
def is_valid_lockW (q : TSQueue α) (lock : WriteLock) : Bool :=
  lock.mutexAddr == q.mutexAddr

/-- Embeds `const T& front(ReadLock& lock) const`: assert the lock, then
return the deque's first element (undefined behavior when empty). -/
def frontR (q : TSQueue α) (lock : ReadLock) : Outcome α × TSQueue α :=
  if is_valid_lockR q lock then
    match q.elems.head? with
    | some a => (.ok a, q)
    | none => (.ub, q)
  else (.assertFail, q)

/-- Embeds `const T& back(ReadLock& lock) const`: assert the lock, then
return the deque's last element (undefined behavior when empty). -/
def backR (q : TSQueue α) (lock : ReadLock) : Outcome α × TSQueue α :=
  if is_valid_lockR q lock then
    match q.elems.getLast? with
    | some a => (.ok a, q)
    | none => (.ub, q)
  else (.assertFail, q)

/-- Embeds `T& front(WriteLock& lock)`: same body as the `ReadLock` overload,
with mutable access for the caller. -/
def frontW (q : TSQueue α) (lock : WriteLock) : Outcome α × TSQueue α :=
  if is_valid_lockW q lock then
    match q.elems.head? with
    | some a => (.ok a, q)
    | none => (.ub, q)
  else (.assertFail, q)

/-- Embeds `T& back(WriteLock& lock)`: same body as the `ReadLock` overload,
with mutable access for the caller. -/
def backW (q : TSQueue α) (lock : WriteLock) : Outcome α × TSQueue α :=
  if is_valid_lockW q lock then
    match q.elems.getLast? with
    | some a => (.ok a, q)
    | none => (.ub, q)
  else (.assertFail, q)

/-- Embeds `bool empty(ReadLock& lock) const`: assert the lock, then return
`deque::empty()`. -/
def emptyR (q : TSQueue α) (lock : ReadLock) : Outcome Bool × TSQueue α :=
  if is_valid_lockR q lock then (.ok q.elems.isEmpty, q) else (.assertFail, q)

/-- Embeds `bool empty(WriteLock& lock) const`. -/
def emptyW (q : TSQueue α) (lock : WriteLock) : Outcome Bool × TSQueue α :=
  if is_valid_lockW q lock then (.ok q.elems.isEmpty, q) else (.assertFail, q)

/-- Embeds `size_t size(ReadLock& lock) const`: assert the lock, then return
`deque::size()`. -/
def sizeR (q : TSQueue α) (lock : ReadLock) : Outcome Nat × TSQueue α :=
  if is_valid_lockR q lock then (.ok q.elems.length, q) else (.assertFail, q)

/-- Embeds `size_t size(WriteLock& lock) const`. -/
def sizeW (q : TSQueue α) (lock : WriteLock) : Outcome Nat × TSQueue α :=
  if is_valid_lockW q lock then (.ok q.elems.length, q) else (.assertFail, q)

/-- Embeds `void push(const T& value, WriteLock& lock)` (and the rvalue
overload, whose semantics coincide here): assert the lock, then
`deque::push_back(value)`. -/
def push (q : TSQueue α) (value : α) (lock : WriteLock) :
    Outcome Unit × TSQueue α :=
  if is_valid_lockW q lock then
    (.ok (), { q with elems := q.elems ++ [value] })
  else (.assertFail, q)

/-- Embeds `T pop(WriteLock& lock)`: assert the lock, move out
`deque::front()` and `deque::pop_front()` (undefined behavior when empty),
returning the moved-out value. -/
def pop (q : TSQueue α) (lock : WriteLock) : Outcome α × TSQueue α :=
  if is_valid_lockW q lock then
    match q.elems with
    | [] => (.ub, q)
    | x :: xs => (.ok x, { q with elems := xs })
  else (.assertFail, q)

/-- Embeds `ReadLock acquire_read_lock() const`: `ReadLock(m_mutex)`, a lock
referring to this queue's own mutex. -/
def acquire_read_lock (q : TSQueue α) : ReadLock :=
  ⟨q.mutexAddr⟩

/-- Embeds `WriteLock acquire_write_lock() const`: `WriteLock(m_mutex)`. -/
def acquire_write_lock (q : TSQueue α) : WriteLock :=
  ⟨q.mutexAddr⟩

/-- The `IterableView` adaptor: holds a reference to the queue (its lock
reference carries no further data relevant to the model). -/
structure IterableView (α : Type) where
  m_queue : TSQueue α
deriving DecidableEq

/-- The `IterableWriteView` adaptor. -/
structure IterableWriteView (α : Type) where
  m_queue : TSQueue α
deriving DecidableEq

/-- Traversal of an `IterableView` from `begin()` to `end()`: the deque's
elements front to back (`cbegin..cend`). -/
def IterableView.toList (v : IterableView α) : List α :=
  v.m_queue.elems

/-- Traversal of an `IterableWriteView` from `begin()` to `end()`. -/
def IterableWriteView.toList (v : IterableWriteView α) : List α :=
  v.m_queue.elems

/-- Embeds the `IterableView(ThreadSafeQueue&, ReadLock&)` constructor, whose
body asserts `queue.is_valid_lock(lock)`. -/
def IterableView.make (q : TSQueue α) (lock : ReadLock) :
    Outcome (IterableView α) :=
  if is_valid_lockR q lock then .ok ⟨q⟩ else .assertFail

/-- Embeds the `IterableWriteView(ThreadSafeQueue&, WriteLock&)` constructor. -/
def IterableWriteView.make (q : TSQueue α) (lock : WriteLock) :
    Outcome (IterableWriteView α) :=
  if is_valid_lockW q lock then .ok ⟨q⟩ else .assertFail

/-- Embeds `IterableView acquire_iterable_view(ReadLock& lock) const`: assert
the lock, then construct the view (which asserts again). -/
def acquire_iterable_view (q : TSQueue α) (lock : ReadLock) :
    Outcome (IterableView α) × TSQueue α :=
  if is_valid_lockR q lock then (IterableView.make q lock, q)
  else (.assertFail, q)

/-- Embeds `IterableWriteView acquire_iterable_write_view(WriteLock& lock)`. -/
def acquire_iterable_write_view (q : TSQueue α) (lock : WriteLock) :
    Outcome (IterableWriteView α) × TSQueue α :=
  if is_valid_lockW q lock then (IterableWriteView.make q lock, q)
  else (.assertFail, q)

/-- Names of the operations on the queue's public surface that take a lock
argument. -/
inductive OpName where
  | frontOp
  | backOp
  | emptyOp
  | sizeOp
  | pushOp
  | popOp
  | iterViewOp
  | iterWriteViewOp
deriving DecidableEq

/-- Read off the header's signatures: does the operation have an overload
accepting a `ReadLock&`? (`front`/`back`/`empty`/`size` have one;
`acquire_iterable_view` and the `IterableView` constructor take only a
`ReadLock&`; `push`, `pop` and `acquire_iterable_write_view` take only a
`WriteLock&`.) -/
def acceptsReadLock : OpName → Bool
  | .frontOp => true
  | .backOp => true
  | .emptyOp => true
  | .sizeOp => true
  | .pushOp => false
  | .popOp => false
  | .iterViewOp => true
  | .iterWriteViewOp => false

/-- Read off the header's signatures: does the operation have an overload
accepting a `WriteLock&`? (`front`/`back`/`empty`/`size` have one;
`acquire_iterable_view` and the `IterableView` constructor do not — their
only parameter type is `ReadLock&`, to which a `WriteLock` does not
convert.) -/
def acceptsWriteLock : OpName → Bool
  | .frontOp => true
  | .backOp => true
  | .emptyOp => true
  | .sizeOp => true
  | .pushOp => true
  | .popOp => true
  | .iterViewOp => false
  | .iterWriteViewOp => true

/-- Operations whose contract requires (only) a read token. -/
def readTokenOps : List OpName :=
  [.frontOp, .backOp, .emptyOp, .sizeOp, .iterViewOp]

/-- Operations whose contract requires a write token. -/
def writeTokenOps : List OpName :=
  [.pushOp, .popOp, .iterWriteViewOp]

/-- Driver for claim C1: push the values of `vs` in order, each through
`push` under the given lock, stopping at the first non-`ok` outcome. -/
def pushAll (q : TSQueue α) (vs : List α) (lock : WriteLock) :
    Outcome Unit × TSQueue α :=
  match vs with
  | [] => (.ok (), q)
  | v :: rest =>
    match push q v lock with
    | (.ok _, q2) => pushAll q2 rest lock
    | r => r

/-- Driver for claim C1: pop `n` times through `pop` under the given lock,
collecting the popped values in order, stopping at the first non-`ok`
outcome. -/
def popAll (q : TSQueue α) (n : Nat) (lock : WriteLock) :
    Outcome (List α) × TSQueue α :=
  match n with
  | 0 => (.ok [], q)
  | Nat.succ m =>
    match pop q lock with
    | (.ok v, q2) =>
      match popAll q2 m lock with
      | (.ok vs, q3) => (.ok (v :: vs), q3)
      | (.assertFail, q3) => (.assertFail, q3)
      | (.ub, q3) => (.ub, q3)
      | (.emptyQueue, q3) => (.emptyQueue, q3)
    | (.assertFail, q2) => (.assertFail, q2)
    | (.ub, q2) => (.ub, q2)
    | (.emptyQueue, q2) => (.emptyQueue, q2)

/-- Modelled from the spec: the Exclusion Primitive
(`RWMutex = std::shared_mutex`) is an external dependency whose
implementation is not part of this repository; section 4.1 of the spec gives
its contract. A state records how many shared holders and how many exclusive
holders are currently registered. -/
structure MutexState where
  shared : Nat
  exclusive : Nat
deriving DecidableEq

/-- Modelled from the spec: transitions of the Exclusion Primitive.
`acquire_shared` completes only while no exclusive holder is active;
`acquire_exclusive` completes only while there are zero shared and zero
exclusive holders; a release ends one hold of the matching kind. -/
inductive MutexStep : MutexState → MutexState → Prop where
  | acquireShared (s : MutexState) (h : s.exclusive = 0) :
      MutexStep s { s with shared := s.shared + 1 }
  | acquireExclusive (s : MutexState) (h1 : s.shared = 0) (h2 : s.exclusive = 0) :
      MutexStep s { s with exclusive := s.exclusive + 1 }
  | releaseShared (s : MutexState) (h : 0 < s.shared) :
      MutexStep s { s with shared := s.shared - 1 }
  | releaseExclusive (s : MutexState) (h : 0 < s.exclusive) :
      MutexStep s { s with exclusive := s.exclusive - 1 }

/-- Initial state of a freshly constructed mutex: no holders. -/
def MutexState.init : MutexState :=
  ⟨0, 0⟩

/-- States reachable from the initial mutex state by any interleaving of
acquisitions and releases. -/
inductive MutexReachable : MutexState → Prop where
  | init : MutexReachable MutexState.init
  | step {s t : MutexState} :
      MutexReachable s → MutexStep s t → MutexReachable t

section HelperLemmas

/-- A successful `push` appends the value and reports `ok`. -/
theorem push_ok (q : TSQueue α) (v : α) (wl : WriteLock)
    (hv : is_valid_lockW q wl = true) :
    push q v wl = (Outcome.ok (), { q with elems := q.elems ++ [v] }) := by
  simp [push, hv]

/-- A successful `pop` removes and returns the first element. -/
theorem pop_ok (q : TSQueue α) (x : α) (xs : List α) (wl : WriteLock)
    (hv : is_valid_lockW q wl = true) (he : q.elems = x :: xs) :
    pop q wl = (Outcome.ok x, { q with elems := xs }) := by
  simp [pop, hv, he]

/-- Pushing a list of values under a valid write lock appends them in order. -/
theorem pushAll_ok (vs : List α) (q : TSQueue α) (wl : WriteLock)
    (hv : is_valid_lockW q wl = true) :
    pushAll q vs wl = (Outcome.ok (), { q with elems := q.elems ++ vs }) := by
  induction vs generalizing q with
  | nil => simp [pushAll]
  | cons v rest ih =>
    have hv2 : is_valid_lockW { q with elems := q.elems ++ [v] } wl = true := hv
    simp only [pushAll]
    rw [push_ok q v wl hv]
    simp only [ih { q with elems := q.elems ++ [v] } hv2]
    simp

/-- Popping exactly `length` many times under a valid write lock empties the
queue and returns all elements in order. -/
theorem popAll_ok (l : List α) (q : TSQueue α) (wl : WriteLock)
    (hv : is_valid_lockW q wl = true) (he : q.elems = l) :
    popAll q l.length wl = (Outcome.ok l, { q with elems := [] }) := by
  induction l generalizing q with
  | nil =>
    cases q with
    | mk m es =>
      have he2 : es = [] := he
      subst he2
      rfl
  | cons x xs ih =>
    have hv2 : is_valid_lockW { q with elems := xs } wl = true := hv
    simp only [List.length_cons, popAll]
    rw [pop_ok q x xs wl hv he]
    simp only [ih { q with elems := xs } hv2 rfl]

end HelperLemmas

/-- Claim C1 (FIFO order): pushing values `vs` one by one, each under a valid
write token, into an initially empty queue and then popping `vs.length`
times under a write token returns exactly `vs`, in that order. -/
theorem fifo_order (q : TSQueue α) (vs : List α) (wl : WriteLock)
    (hv : is_valid_lockW q wl = true) (he : q.elems = []) :
    (pushAll q vs wl).1 = Outcome.ok () ∧
    (popAll (pushAll q vs wl).2 vs.length wl).1 = Outcome.ok vs := by
  rw [pushAll_ok vs q wl hv]
  refine ⟨rfl, ?_⟩
  have hv2 : is_valid_lockW { q with elems := q.elems ++ vs } wl = true := hv
  rw [popAll_ok vs { q with elems := q.elems ++ vs } wl hv2 (by simp [he])]

/-- Witness for C1 at the concrete run of spec section 8: push 1, 2, 3 into an
empty queue, then pop three times, yielding 1, 2, 3. -/
theorem fifo_order_witness :
    (pushAll (⟨0, []⟩ : TSQueue Nat) [1, 2, 3] ⟨0⟩).1 = Outcome.ok () ∧
    (popAll (pushAll (⟨0, []⟩ : TSQueue Nat) [1, 2, 3] ⟨0⟩).2 3 ⟨0⟩).1
      = Outcome.ok [1, 2, 3] :=
  fifo_order ⟨0, []⟩ [1, 2, 3] ⟨0⟩ rfl rfl

/-- Claim C5 (pop postcondition): on a non-empty queue, under a valid write
token, `pop` removes and returns the head (first-inserted) element, the
remaining elements keep their relative order (they are exactly the tail),
and the size decreases by exactly one; the popped value is returned by
value to the caller. -/
theorem pop_postcondition (q : TSQueue α) (wl : WriteLock) (x : α) (xs : List α)
    (hv : is_valid_lockW q wl = true) (he : q.elems = x :: xs) :
    pop q wl = (Outcome.ok x, { q with elems := xs }) ∧
    q.elems = x :: (pop q wl).2.elems ∧
    (pop q wl).2.elems.length + 1 = q.elems.length := by
  have h := pop_ok q x xs wl hv he
  refine ⟨h, ?_, ?_⟩ <;> rw [h] <;> simp [he]

/-- Witness for C5 at the concrete queue holding 5, 6. -/
theorem pop_postcondition_witness :
    pop (⟨0, [5, 6]⟩ : TSQueue Nat) ⟨0⟩ = (Outcome.ok 5, ⟨0, [6]⟩) ∧
    (⟨0, [5, 6]⟩ : TSQueue Nat).elems
      = 5 :: (pop (⟨0, [5, 6]⟩ : TSQueue Nat) ⟨0⟩).2.elems ∧
    (pop (⟨0, [5, 6]⟩ : TSQueue Nat) ⟨0⟩).2.elems.length + 1
      = (⟨0, [5, 6]⟩ : TSQueue Nat).elems.length :=
  pop_postcondition ⟨0, [5, 6]⟩ ⟨0⟩ 5 [6] rfl rfl

/-- Claim C6 (push postcondition): under a valid write token, `push q v`
appends `v` at the tail and succeeds (outcome `ok`), afterwards `back`
returns `v`, all previously present elements are unchanged and keep their
order (the new sequence restricted to the old length is the old sequence),
and the size increases by exactly one. -/
theorem push_postcondition (q : TSQueue α) (wl : WriteLock) (v : α)
    (hv : is_valid_lockW q wl = true) :
    push q v wl = (Outcome.ok (), { q with elems := q.elems ++ [v] }) ∧
    (backW (push q v wl).2 wl).1 = Outcome.ok v ∧
    (push q v wl).2.elems.length = q.elems.length + 1 ∧
    (push q v wl).2.elems.take q.elems.length = q.elems := by
  have h := push_ok q v wl hv
  have hv2 : is_valid_lockW { q with elems := q.elems ++ [v] } wl = true := hv
  refine ⟨h, ?_, ?_, ?_⟩ <;> rw [h]
  · simp [backW, hv2]
  · simp
  · simp

/-- Witness for C6 at the concrete queue holding 7, pushing 9. -/
theorem push_postcondition_witness :
    push (⟨0, [7]⟩ : TSQueue Nat) 9 ⟨0⟩ = (Outcome.ok (), ⟨0, [7, 9]⟩) ∧
    (backW (push (⟨0, [7]⟩ : TSQueue Nat) 9 ⟨0⟩).2 ⟨0⟩).1 = Outcome.ok 9 ∧
    (push (⟨0, [7]⟩ : TSQueue Nat) 9 ⟨0⟩).2.elems.length
      = (⟨0, [7]⟩ : TSQueue Nat).elems.length + 1 ∧
    (push (⟨0, [7]⟩ : TSQueue Nat) 9 ⟨0⟩).2.elems.take
        (⟨0, [7]⟩ : TSQueue Nat).elems.length
      = (⟨0, [7]⟩ : TSQueue Nat).elems :=
  push_postcondition ⟨0, [7]⟩ ⟨0⟩ 9 rfl

/-- Claim C2 as stated fails on the code: on a queue of size 0, with a valid
write token, `pop` does not signal the `EmptyQueue` condition — it reaches
the underlying deque's `front`/`pop_front` outside their precondition,
which is undefined behavior; `front` and `back` behave the same. -/
theorem empty_access_no_signal_cex :
    (pop (⟨0, []⟩ : TSQueue Nat) ⟨0⟩).1 = Outcome.ub ∧
    (pop (⟨0, []⟩ : TSQueue Nat) ⟨0⟩).1 ≠ Outcome.emptyQueue ∧
    (frontR (⟨0, []⟩ : TSQueue Nat) ⟨0⟩).1 = Outcome.ub ∧
    (backR (⟨0, []⟩ : TSQueue Nat) ⟨0⟩).1 = Outcome.ub := by
  decide

/-- Claim C2 amended: for every queue of size 0 and valid token, `pop`,
`front` and `back` (either overload) perform no emptiness check: each
invokes the underlying deque operation outside its precondition, which is
undefined behavior in the source; no `EmptyQueue` condition is signaled —
the caller must check `empty()` first under the same lock scope. -/
theorem empty_access_is_ub (q : TSQueue α) (rl : ReadLock) (wl : WriteLock)
    (hr : is_valid_lockR q rl = true) (hw : is_valid_lockW q wl = true)
    (he : q.elems = []) :
    (pop q wl).1 = Outcome.ub ∧
    (frontR q rl).1 = Outcome.ub ∧
    (backR q rl).1 = Outcome.ub ∧
    (frontW q wl).1 = Outcome.ub ∧
    (backW q wl).1 = Outcome.ub ∧
    (pop q wl).1 ≠ Outcome.emptyQueue := by
  simp [pop, frontR, backR, frontW, backW, hr, hw, he]

/-- Witness for the amended C2 at a concrete empty queue. -/
theorem empty_access_is_ub_witness :
    (pop (⟨1, []⟩ : TSQueue Nat) ⟨1⟩).1 = Outcome.ub ∧
    (frontR (⟨1, []⟩ : TSQueue Nat) ⟨1⟩).1 = Outcome.ub ∧
    (backR (⟨1, []⟩ : TSQueue Nat) ⟨1⟩).1 = Outcome.ub ∧
    (frontW (⟨1, []⟩ : TSQueue Nat) ⟨1⟩).1 = Outcome.ub ∧
    (backW (⟨1, []⟩ : TSQueue Nat) ⟨1⟩).1 = Outcome.ub ∧
    (pop (⟨1, []⟩ : TSQueue Nat) ⟨1⟩).1 ≠ Outcome.emptyQueue :=
  empty_access_is_ub ⟨1, []⟩ ⟨1⟩ ⟨1⟩ rfl rfl rfl

/-- Claim C3 (cross-instance token rejection): when two queues have distinct
mutexes (distinct instances), a token acquired from queue A and presented
to any observer or mutator operation of queue B fails the token validation
before touching storage: the outcome is `assertFail` — an immediate,
non-recoverable abort — queue B's storage is untouched, and the operation
never reports `ok` (no silent no-op, no unsynchronized access). -/
theorem cross_instance_rejection (qA qB : TSQueue α) (v : α)
    (h : qA.mutexAddr ≠ qB.mutexAddr) :
    frontR qB (acquire_read_lock qA) = (Outcome.assertFail, qB) ∧
    backR qB (acquire_read_lock qA) = (Outcome.assertFail, qB) ∧
    frontW qB (acquire_write_lock qA) = (Outcome.assertFail, qB) ∧
    backW qB (acquire_write_lock qA) = (Outcome.assertFail, qB) ∧
    emptyR qB (acquire_read_lock qA) = (Outcome.assertFail, qB) ∧
    emptyW qB (acquire_write_lock qA) = (Outcome.assertFail, qB) ∧
    sizeR qB (acquire_read_lock qA) = (Outcome.assertFail, qB) ∧
    sizeW qB (acquire_write_lock qA) = (Outcome.assertFail, qB) ∧
    push qB v (acquire_write_lock qA) = (Outcome.assertFail, qB) ∧
    pop qB (acquire_write_lock qA) = (Outcome.assertFail, qB) ∧
    acquire_iterable_view qB (acquire_read_lock qA) = (Outcome.assertFail, qB) ∧
    acquire_iterable_write_view qB (acquire_write_lock qA)
      = (Outcome.assertFail, qB) ∧
    IterableView.make qB (acquire_read_lock qA) = Outcome.assertFail ∧
    IterableWriteView.make qB (acquire_write_lock qA) = Outcome.assertFail := by
  have hr : is_valid_lockR qB (acquire_read_lock qA) = false := by
    simp [is_valid_lockR, acquire_read_lock, h]
  have hw : is_valid_lockW qB (acquire_write_lock qA) = false := by
    simp [is_valid_lockW, acquire_write_lock, h]
  simp [frontR, backR, frontW, backW, emptyR, emptyW, sizeR, sizeW, push, pop,
    acquire_iterable_view, acquire_iterable_write_view, IterableView.make,
    IterableWriteView.make, hr, hw]

/-- Witness for C3: a token of the queue at mutex address 4 presented to the
queue at mutex address 5. -/
theorem cross_instance_rejection_witness :
    frontR (⟨5, [9]⟩ : TSQueue Nat) (acquire_read_lock (⟨4, []⟩ : TSQueue Nat))
      = (Outcome.assertFail, ⟨5, [9]⟩) ∧
    backR (⟨5, [9]⟩ : TSQueue Nat) (acquire_read_lock (⟨4, []⟩ : TSQueue Nat))
      = (Outcome.assertFail, ⟨5, [9]⟩) ∧
    frontW (⟨5, [9]⟩ : TSQueue Nat) (acquire_write_lock (⟨4, []⟩ : TSQueue Nat))
      = (Outcome.assertFail, ⟨5, [9]⟩) ∧
    backW (⟨5, [9]⟩ : TSQueue Nat) (acquire_write_lock (⟨4, []⟩ : TSQueue Nat))
      = (Outcome.assertFail, ⟨5, [9]⟩) ∧
    emptyR (⟨5, [9]⟩ : TSQueue Nat) (acquire_read_lock (⟨4, []⟩ : TSQueue Nat))
      = (Outcome.assertFail, ⟨5, [9]⟩) ∧
    emptyW (⟨5, [9]⟩ : TSQueue Nat) (acquire_write_lock (⟨4, []⟩ : TSQueue Nat))
      = (Outcome.assertFail, ⟨5, [9]⟩) ∧
    sizeR (⟨5, [9]⟩ : TSQueue Nat) (acquire_read_lock (⟨4, []⟩ : TSQueue Nat))
      = (Outcome.assertFail, ⟨5, [9]⟩) ∧
    sizeW (⟨5, [9]⟩ : TSQueue Nat) (acquire_write_lock (⟨4, []⟩ : TSQueue Nat))
      = (Outcome.assertFail, ⟨5, [9]⟩) ∧
    push (⟨5, [9]⟩ : TSQueue Nat) 7 (acquire_write_lock (⟨4, []⟩ : TSQueue Nat))
      = (Outcome.assertFail, ⟨5, [9]⟩) ∧
    pop (⟨5, [9]⟩ : TSQueue Nat) (acquire_write_lock (⟨4, []⟩ : TSQueue Nat))
      = (Outcome.assertFail, ⟨5, [9]⟩) ∧
    acquire_iterable_view (⟨5, [9]⟩ : TSQueue Nat) (acquire_read_lock (⟨4, []⟩ : TSQueue Nat))
      = (Outcome.assertFail, ⟨5, [9]⟩) ∧
    acquire_iterable_write_view (⟨5, [9]⟩ : TSQueue Nat)
        (acquire_write_lock (⟨4, []⟩ : TSQueue Nat))
      = (Outcome.assertFail, ⟨5, [9]⟩) ∧
    IterableView.make (⟨5, [9]⟩ : TSQueue Nat) (acquire_read_lock (⟨4, []⟩ : TSQueue Nat))
      = Outcome.assertFail ∧
    IterableWriteView.make (⟨5, [9]⟩ : TSQueue Nat) (acquire_write_lock (⟨4, []⟩ : TSQueue Nat))
      = Outcome.assertFail :=
  cross_instance_rejection ⟨4, []⟩ ⟨5, [9]⟩ 7 (by decide)

/-- Claim C4 as stated fails on the code: `acquire_iterable_view` (and the
`IterableView` constructor) has no `WriteLock` overload — its only
parameter type is `ReadLock&`, to which a `WriteLock` does not convert —
so a write token is not accepted by every read-token operation. -/
theorem write_token_substitution_cex :
    acceptsWriteLock OpName.iterViewOp = false ∧
    ¬ (readTokenOps.all acceptsWriteLock = true) := by
  decide

/-- Claim C4 amended: `front`, `back`, `empty` and `size` accept both read
and write tokens; `acquire_iterable_view` (and `IterableView`
construction) accepts only a read token; `push`, `pop` and
`acquire_iterable_write_view` accept only a write token — read tokens are
never accepted where a write token is required. -/
theorem write_token_substitution_amended :
    acceptsReadLock OpName.frontOp = true ∧
    acceptsWriteLock OpName.frontOp = true ∧
    acceptsReadLock OpName.backOp = true ∧
    acceptsWriteLock OpName.backOp = true ∧
    acceptsReadLock OpName.emptyOp = true ∧
    acceptsWriteLock OpName.emptyOp = true ∧
    acceptsReadLock OpName.sizeOp = true ∧
    acceptsWriteLock OpName.sizeOp = true ∧
    acceptsReadLock OpName.iterViewOp = true ∧
    acceptsWriteLock OpName.iterViewOp = false ∧
    acceptsReadLock OpName.pushOp = false ∧
    acceptsWriteLock OpName.pushOp = true ∧
    acceptsReadLock OpName.popOp = false ∧
    acceptsWriteLock OpName.popOp = true ∧
    acceptsReadLock OpName.iterWriteViewOp = false ∧
    acceptsWriteLock OpName.iterWriteViewOp = true := by
  decide

/-- Claim C7 (view traversal order): under a valid token of the required
kind, constructing an `IterableView` or `IterableWriteView` succeeds, and
traversing it from `begin()` to `end()` yields exactly the queue's
elements — a finite list — in insertion order from front to back. -/
theorem view_traversal_order (q : TSQueue α) (rl : ReadLock) (wl : WriteLock)
    (hr : is_valid_lockR q rl = true) (hw : is_valid_lockW q wl = true) :
    acquire_iterable_view q rl = (Outcome.ok ⟨q⟩, q) ∧
    IterableView.toList ⟨q⟩ = q.elems ∧
    acquire_iterable_write_view q wl = (Outcome.ok ⟨q⟩, q) ∧
    IterableWriteView.toList ⟨q⟩ = q.elems := by
  simp [acquire_iterable_view, acquire_iterable_write_view, IterableView.make,
    IterableWriteView.make, IterableView.toList, IterableWriteView.toList,
    hr, hw]

/-- Witness for C7 at a concrete queue holding 3, 4. -/
theorem view_traversal_order_witness :
    acquire_iterable_view (⟨2, [3, 4]⟩ : TSQueue Nat) ⟨2⟩
      = (Outcome.ok ⟨⟨2, [3, 4]⟩⟩, ⟨2, [3, 4]⟩) ∧
    IterableView.toList (⟨⟨2, [3, 4]⟩⟩ : IterableView Nat)
      = (⟨2, [3, 4]⟩ : TSQueue Nat).elems ∧
    acquire_iterable_write_view (⟨2, [3, 4]⟩ : TSQueue Nat) ⟨2⟩
      = (Outcome.ok ⟨⟨2, [3, 4]⟩⟩, ⟨2, [3, 4]⟩) ∧
    IterableWriteView.toList (⟨⟨2, [3, 4]⟩⟩ : IterableWriteView Nat)
      = (⟨2, [3, 4]⟩ : TSQueue Nat).elems :=
  view_traversal_order ⟨2, [3, 4]⟩ ⟨2⟩ ⟨2⟩ rfl rfl

/-- One step of the Exclusion Primitive preserves its holder invariant. -/
theorem mutex_step_preserves (s t : MutexState) (hst : MutexStep s t)
    (ih1 : s.exclusive ≤ 1) (ih2 : 0 < s.exclusive → s.shared = 0) :
    t.exclusive ≤ 1 ∧ (0 < t.exclusive → t.shared = 0) := by
  obtain ⟨sh, ex⟩ := s
  have ie1 : ex ≤ 1 := ih1
  have ie2 : 0 < ex → sh = 0 := ih2
  cases hst with
  | acquireShared h =>
    have h0 : ex = 0 := h
    show ex ≤ 1 ∧ (0 < ex → sh + 1 = 0)
    omega
  | acquireExclusive h1 h2 =>
    have h0 : sh = 0 := h1
    have h3 : ex = 0 := h2
    show ex + 1 ≤ 1 ∧ (0 < ex + 1 → sh = 0)
    omega
  | releaseShared h =>
    show ex ≤ 1 ∧ (0 < ex → sh - 1 = 0)
    refine ⟨ie1, fun hp => ?_⟩
    have h0 := ie2 hp
    omega
  | releaseExclusive h =>
    show ex - 1 ≤ 1 ∧ (0 < ex - 1 → sh = 0)
    omega

/-- Invariant of the Exclusion Primitive's reachable states: at most one
exclusive holder, and an exclusive holder excludes all shared holders. -/
theorem mutex_invariant (s : MutexState) (h : MutexReachable s) :
    s.exclusive ≤ 1 ∧ (0 < s.exclusive → s.shared = 0) := by
  induction h with
  | init => simp [MutexState.init]
  | step hr hst ih => exact mutex_step_preserves _ _ hst ih.1 ih.2

/-- Claim C8 (mutual exclusion): in every state of the Exclusion Primitive
reachable by any interleaving of acquisitions and releases, there is at
most one exclusive (write) holder, and an exclusive holder never coexists
with a shared (read) holder. Hence a write operation, performed under the
exclusive lease, cannot overlap any other read or write operation on the
same instance; and while shared leases are held no writer is active, so
the queue's contents cannot change (mutation requires the write lease). -/
theorem mutual_exclusion (s : MutexState) (h : MutexReachable s) :
    s.exclusive ≤ 1 ∧ ¬ (0 < s.exclusive ∧ 0 < s.shared) := by
  have hi := mutex_invariant s h
  refine ⟨hi.1, ?_⟩
  rintro ⟨he, hs⟩
  have h0 := hi.2 he
  omega

/-- Witness for C8 at the state reached by one `acquire_exclusive` from the
initial state. -/
theorem mutual_exclusion_witness :
    (⟨0, 1⟩ : MutexState).exclusive ≤ 1 ∧
    ¬ (0 < (⟨0, 1⟩ : MutexState).exclusive ∧
        0 < (⟨0, 1⟩ : MutexState).shared) :=
  mutual_exclusion ⟨0, 1⟩
    (MutexReachable.step MutexReachable.init
      (MutexStep.acquireExclusive MutexState.init rfl rfl))

section PreservationLemmas

/-- The queue state is untouched by `front` (read overload). -/
theorem frontR_preserves (q : TSQueue α) (rl : ReadLock) :
    (frontR q rl).2 = q := by
  unfold frontR
  split
  · split <;> rfl
  · rfl

/-- The queue state is untouched by `front` (write overload). -/
theorem frontW_preserves (q : TSQueue α) (wl : WriteLock) :
    (frontW q wl).2 = q := by
  unfold frontW
  split
  · split <;> rfl
  · rfl

/-- The queue state is untouched by `back` (read overload). -/
theorem backR_preserves (q : TSQueue α) (rl : ReadLock) :
    (backR q rl).2 = q := by
  unfold backR
  split
  · split <;> rfl
  · rfl

/-- The queue state is untouched by `back` (write overload). -/
theorem backW_preserves (q : TSQueue α) (wl : WriteLock) :
    (backW q wl).2 = q := by
  unfold backW
  split
  · split <;> rfl
  · rfl

/-- The queue state is untouched by `empty` (read overload). -/
theorem emptyR_preserves (q : TSQueue α) (rl : ReadLock) :
    (emptyR q rl).2 = q := by
  unfold emptyR
  split <;> rfl

/-- The queue state is untouched by `empty` (write overload). -/
theorem emptyW_preserves (q : TSQueue α) (wl : WriteLock) :
    (emptyW q wl).2 = q := by
  unfold emptyW
  split <;> rfl

/-- The queue state is untouched by `size` (read overload). -/
theorem sizeR_preserves (q : TSQueue α) (rl : ReadLock) :
    (sizeR q rl).2 = q := by
  unfold sizeR
  split <;> rfl

/-- The queue state is untouched by `size` (write overload). -/
theorem sizeW_preserves (q : TSQueue α) (wl : WriteLock) :
    (sizeW q wl).2 = q := by
  unfold sizeW
  split <;> rfl

/-- The queue state is untouched by `acquire_iterable_view`. -/
theorem iterable_view_preserves (q : TSQueue α) (rl : ReadLock) :
    (acquire_iterable_view q rl).2 = q := by
  unfold acquire_iterable_view
  split <;> rfl

end PreservationLemmas

/-- Claim C9 (observers are pure): `front`, `back`, `empty`, `size` (each in
both of its lock overloads) and `acquire_iterable_view` leave the queue
state — in particular its element sequence — exactly unchanged: the state
after the call equals the state before, for every queue and every lock
(even an invalid one, where the operation aborts without touching
storage). -/
theorem observers_pure (q : TSQueue α) (rl : ReadLock) (wl : WriteLock) :
    (frontR q rl).2 = q ∧ (frontW q wl).2 = q ∧
    (backR q rl).2 = q ∧ (backW q wl).2 = q ∧
    (emptyR q rl).2 = q ∧ (emptyW q wl).2 = q ∧
    (sizeR q rl).2 = q ∧ (sizeW q wl).2 = q ∧
    (acquire_iterable_view q rl).2 = q :=
  ⟨frontR_preserves q rl, frontW_preserves q wl, backR_preserves q rl,
    backW_preserves q wl, emptyR_preserves q rl, emptyW_preserves q wl,
    sizeR_preserves q rl, sizeW_preserves q wl, iterable_view_preserves q rl⟩

section NoAssertLemmas

/-- Under a valid read lock, `front` never takes the assertion branch. -/
theorem frontR_no_assert (q : TSQueue α) (rl : ReadLock)
    (hr : is_valid_lockR q rl = true) :
    (frontR q rl).1 ≠ Outcome.assertFail := by
  unfold frontR
  rw [if_pos hr]
  split <;> simp

/-- Under a valid read lock, `back` never takes the assertion branch. -/
theorem backR_no_assert (q : TSQueue α) (rl : ReadLock)
    (hr : is_valid_lockR q rl = true) :
    (backR q rl).1 ≠ Outcome.assertFail := by
  unfold backR
  rw [if_pos hr]
  split <;> simp

/-- Under a valid write lock, `front` never takes the assertion branch. -/
theorem frontW_no_assert (q : TSQueue α) (wl : WriteLock)
    (hw : is_valid_lockW q wl = true) :
    (frontW q wl).1 ≠ Outcome.assertFail := by
  unfold frontW
  rw [if_pos hw]
  split <;> simp

/-- Under a valid write lock, `back` never takes the assertion branch. -/
theorem backW_no_assert (q : TSQueue α) (wl : WriteLock)
    (hw : is_valid_lockW q wl = true) :
    (backW q wl).1 ≠ Outcome.assertFail := by
  unfold backW
  rw [if_pos hw]
  split <;> simp

/-- Under a valid write lock, `pop` never takes the assertion branch. -/
theorem pop_no_assert (q : TSQueue α) (wl : WriteLock)
    (hw : is_valid_lockW q wl = true) :
    (pop q wl).1 ≠ Outcome.assertFail := by
  unfold pop
  rw [if_pos hw]
  split <;> simp

end NoAssertLemmas

/-- Claim C10 (own-token validation always succeeds): a token produced by a
queue's own `acquire_read_lock` or `acquire_write_lock` (and not released —
the model's locks are live) always passes that queue's `is_valid_lock`, so
the validation-failure (assertion) branch of every operation is not taken
for correctly acquired tokens: each operation under its own token reports
its normal outcome and never `assertFail`. -/
theorem own_token_validation (q : TSQueue α) (v : α) :
    is_valid_lockR q (acquire_read_lock q) = true ∧
    is_valid_lockW q (acquire_write_lock q) = true ∧
    (emptyR q (acquire_read_lock q)).1 = Outcome.ok q.elems.isEmpty ∧
    (emptyW q (acquire_write_lock q)).1 = Outcome.ok q.elems.isEmpty ∧
    (sizeR q (acquire_read_lock q)).1 = Outcome.ok q.elems.length ∧
    (sizeW q (acquire_write_lock q)).1 = Outcome.ok q.elems.length ∧
    (frontR q (acquire_read_lock q)).1 ≠ Outcome.assertFail ∧
    (backR q (acquire_read_lock q)).1 ≠ Outcome.assertFail ∧
    (frontW q (acquire_write_lock q)).1 ≠ Outcome.assertFail ∧
    (backW q (acquire_write_lock q)).1 ≠ Outcome.assertFail ∧
    (push q v (acquire_write_lock q)).1 = Outcome.ok () ∧
    (pop q (acquire_write_lock q)).1 ≠ Outcome.assertFail ∧
    (acquire_iterable_view q (acquire_read_lock q)).1 = Outcome.ok ⟨q⟩ ∧
    (acquire_iterable_write_view q (acquire_write_lock q)).1
      = Outcome.ok ⟨q⟩ := by
  have hr : is_valid_lockR q (acquire_read_lock q) = true := by
    simp [is_valid_lockR, acquire_read_lock]
  have hw : is_valid_lockW q (acquire_write_lock q) = true := by
    simp [is_valid_lockW, acquire_write_lock]
  refine ⟨hr, hw, ?_, ?_, ?_, ?_, frontR_no_assert q _ hr, backR_no_assert q _ hr,
    frontW_no_assert q _ hw, backW_no_assert q _ hw, ?_, pop_no_assert q _ hw,
    ?_, ?_⟩ <;>
    simp [emptyR, emptyW, sizeR, sizeW, push, acquire_iterable_view,
      acquire_iterable_write_view, IterableView.make, IterableWriteView.make,
      hr, hw]

end ThreadSafeQueueModel
